import Mathlib

/-!
Shallow embedding of the per-vehicle behavioral core of the traffic
simulator in `vehicle.py` (classes `Vehicle`, `HumanVehicle`, `Car`,
`Truck`, `AutomaticCar`), together with theorems settling the frozen
claims about its specification.

Modelling conventions:
* Python floats are modelled by `ℚ` (exact arithmetic); the single float
  power `(safe_distance/df)**(3/4)` is modelled by `Real.rpow` (see
  `HumanVehicle.prob_left`) and, inside the update pipeline, by the
  decidable comparison `rpow34_lt`, proved equivalent to the real power
  comparison in `rpow34_lt_iff`.
* The class hierarchy is flattened into one `Vehicle` record holding the
  variant constants (`HV_K`, ... as in the source); the dynamic dispatch
  of `calc_acceleration` between `HumanVehicle` and `AutomaticCar` is an
  `auto : Bool` tag (cf. spec section 9, which asks for exactly this
  tagged-union modelling of the subclassing).
* The neighbor-query container is a snapshot record `Neighbors` of the
  six optional neighbor results, each neighbor carrying the fields the
  core reads (`position`, `velocity`, `acceleration`, `length`,
  `safe_distance`).
* `np.random.rand()` is the explicit input `p`; `time.time()` is the
  explicit input `now`.
* Side effects with no bearing on vehicle state (the WARNING print, the
  pygame sound, `container.notify_lane_change`) and the purely cosmetic
  `animlane` animation (spec section 4.5: presentational, may be omitted
  from the physics core) are not modelled.
-/

/-- Configuration record consumed by the core (spec section 6): lane count,
ticks per second, real-time speedup divisor, and the sound flag. -/
structure Conf where
  nb_lanes : ℤ
  fps : ℕ
  speedup : ℚ
  sound : Bool
deriving DecidableEq

/-- Snapshot of one neighbor vehicle, restricted to the fields the core
reads from it. -/
structure Neighbor where
  position : ℚ
  velocity : ℚ
  acceleration : ℚ
  length : ℚ
  safe_distance : ℚ
deriving DecidableEq

/-- Snapshot of the six neighbor queries of the container (vehicle.py
lines 103-125): nearest vehicle ahead/behind in the same, left and right
lanes, or `none`. -/
structure Neighbors where
  front : Option Neighbor
  back : Option Neighbor
  left_front : Option Neighbor
  left_back : Option Neighbor
  right_front : Option Neighbor
  right_back : Option Neighbor
deriving DecidableEq

/-- Vehicle state: the mutable fields of the Python `Vehicle` /
`HumanVehicle` objects plus the per-variant constants set in the
`Car` / `Truck` / `AutomaticCar` constructors.  `emergency` is the
emergency countdown (ticks); `last_lane_change` is the wall-clock
timestamp of the previous lane change. -/
structure Vehicle where
  auto : Bool
  lane : ℤ
  position : ℚ
  velocity : ℚ
  acceleration : ℚ
  emergency : ℕ
  HV_K : ℚ
  HV_K1 : ℚ
  HV_K2 : ℚ
  HV_K3 : ℚ
  HV_A0 : ℚ
  HV_L : ℚ
  HV_L2 : ℚ
  HV_AMAX : ℚ
  HV_BRAKING : ℚ
  length : ℚ
  extremely_safe_distance : ℚ
  safe_distance : ℚ
  desired_velocity : ℚ
  safe_time : ℚ
  epsilon : ℚ
  last_lane_change : ℚ
deriving DecidableEq


/-- Python `min` on floats (used at vehicle.py lines 96, 161, 194, 205,
340, 351, 360), written with an explicit comparison so that concrete
instances reduce in the kernel.  `qmin_eq_min` identifies it with
Mathlib's `min`. -/
def qmin (a b : ℚ) : ℚ := if a ≤ b then a else b

/-- Python `max` on floats (used at vehicle.py lines 28, 99, 198, 211,
344, 366).  `qmax_eq_max` identifies it with Mathlib's `max`. -/
def qmax (a b : ℚ) : ℚ := if b ≤ a then a else b

/-- Python `abs` / `np.absolute` on floats (vehicle.py lines 33, 353).
`qabs_eq_abs` identifies it with Mathlib's `abs`. -/
def qabs (a : ℚ) : ℚ := if a < 0 then -a else a

/-- `Vehicle.update` (vehicle.py lines 26-49): naive kinematic
integration, then the emergency-correction override when the projected
position comes within `0.99 * extremely_safe_distance` of the same-lane
front neighbor; otherwise commit the naive state and decay the
emergency countdown (`max(0, emergency-1)` is `ℕ` truncated
subtraction). -/
def Vehicle.update (conf : Conf) (nb : Neighbors) (dt : ℚ) (s : Vehicle) : Vehicle :=
  let new_position := s.position + dt * s.velocity + (1/2) * dt * dt * s.acceleration
  let new_velocity := qmax 0 (s.velocity + s.acceleration * dt)
  match nb.front with
  | some front =>
      if qabs (front.position - new_position) < (99/100) * s.extremely_safe_distance then
        { s with velocity := front.velocity
                 acceleration := front.acceleration
                 position := front.position - s.extremely_safe_distance
                 emergency := conf.fps }
      else
        { s with position := new_position
                 velocity := new_velocity
                 emergency := s.emergency - 1 }
  | none =>
      { s with position := new_position
               velocity := new_velocity
               emergency := s.emergency - 1 }

/-- Acceleration-zone rule (vehicle.py lines 189-194, repeated verbatim
at lines 335-340): three-way rule on the deficit to the desired
velocity. -/
def HumanVehicle.accel_rule (s : Vehicle) : ℚ :=
  if s.desired_velocity - s.velocity = 0 then 0
  else if s.desired_velocity - s.velocity < s.epsilon then s.HV_A0
  else qmin s.HV_AMAX
    ((s.desired_velocity - s.velocity) / (s.velocity + 1/100) * s.HV_L * s.HV_AMAX)

/-- Adaptive-zone rule (vehicle.py lines 197-205, repeated verbatim at
lines 343-351), for a present front neighbor `f`. -/
def HumanVehicle.adaptive_rule (s : Vehicle) (f : Neighbor) : ℚ :=
  if s.velocity > f.velocity then
    qmax (-s.HV_BRAKING) ((f.velocity - s.velocity) / (f.velocity + 1/100) * s.HV_L * s.HV_BRAKING)
  else
    if s.desired_velocity - s.velocity = 0 then 0
    else if s.desired_velocity - s.velocity < s.epsilon then s.HV_A0
    else qmin s.HV_AMAX
      ((f.velocity - s.velocity) / (f.velocity + 1/100) * s.HV_L * s.HV_AMAX)

/-- Braking-zone rule (vehicle.py lines 207-215, repeated verbatim at
lines 362-371).  The Python guard `af and af < self.acceleration` is
truthiness of `af`: it requires `af` to be nonzero (a front neighbor
with exactly zero acceleration fails the first test). -/
def HumanVehicle.braking_rule (s : Vehicle) (f : Neighbor) : ℚ :=
  let df := f.position - s.position
  if df < s.HV_K * s.safe_distance ∧ f.acceleration ≠ 0 ∧ f.acceleration < s.acceleration then
    -s.HV_BRAKING
  else if s.velocity > f.velocity then
    qmax (-s.HV_BRAKING) (-(s.HV_BRAKING / s.safe_distance * df - s.HV_BRAKING))
  else
    -(1/10)

/-- `HumanVehicle.calc_acceleration` (vehicle.py lines 185-222).  In the
source, `af`, `vf`, `df` are all derived from the same optional front
vehicle `veh_f` (lines 103-106), so the optional neighbor is passed
whole here. -/
def HumanVehicle.calc_acceleration (s : Vehicle) (front : Option Neighbor) : ℚ :=
  match front with
  | none => HumanVehicle.accel_rule s
  | some f =>
      let df := f.position - s.position
      if df ≥ s.HV_K1 * s.safe_distance then HumanVehicle.accel_rule s
      else if df < s.HV_K1 * s.safe_distance ∧ df > s.HV_K2 * s.safe_distance then
        HumanVehicle.adaptive_rule s f
      else HumanVehicle.braking_rule s f

/-- `AutomaticCar.calc_acceleration` (vehicle.py lines 331-377): same as
the human rule, with the lock-in zone inserted before braking.  Two
points are taken from the source exactly as written:
* line 353 tests `np.absolute(vf - desired_velocity) < 2` (a genuine
  absolute value);
* line 354 tests `np.absolute(self.velocity - vf < 1)`, where
  `np.absolute` is applied to the *boolean* `self.velocity - vf < 1`
  (`np.absolute(True) = 1` is truthy, `np.absolute(False) = 0` falsy),
  so the test reduces to the one-sided `velocity - vf < 1`.
The lock-in snap mutates `velocity` and (when above 2) decrements
`safe_distance` (line 358 writes `safe_distance`, not
`extremely_safe_distance`), so this returns the updated state together
with the chosen `a`. -/
def AutomaticCar.calc_acceleration (s : Vehicle) (front : Option Neighbor) : Vehicle × ℚ :=
  match front with
  | none => (s, HumanVehicle.accel_rule s)
  | some f =>
      let df := f.position - s.position
      if df ≥ s.HV_K1 * s.safe_distance then (s, HumanVehicle.accel_rule s)
      else if df < s.HV_K1 * s.safe_distance ∧ df > s.HV_K2 * s.safe_distance then
        (s, HumanVehicle.adaptive_rule s f)
      else if df < s.HV_K2 * s.safe_distance ∧ df > s.HV_K3 * s.safe_distance ∧
          qabs (f.velocity - s.desired_velocity) < 2 then
        if s.velocity - f.velocity < 1 then
          ({ s with velocity := f.velocity
                    safe_distance :=
                      if s.safe_distance > 2 then s.safe_distance - 1 else s.safe_distance },
           0)
        else
          (s, qmin s.HV_AMAX ((f.velocity - s.velocity) / (s.velocity + 1/1000) * s.HV_L2 * s.HV_AMAX))
      else (s, HumanVehicle.braking_rule s f)

/-- Zone classification underlying the branch structure of
`HumanVehicle.calc_acceleration` / `AutomaticCar.calc_acceleration`. -/
inductive Zone where
  | accel
  | adaptive
  | lockin
  | braking
deriving DecidableEq

/-- The zone selected by the branch conditions of
`HumanVehicle.calc_acceleration` (vehicle.py lines 188, 196, 206). -/
def HumanVehicle.zone (s : Vehicle) (front : Option Neighbor) : Zone :=
  match front with
  | none => Zone.accel
  | some f =>
      let df := f.position - s.position
      if df ≥ s.HV_K1 * s.safe_distance then Zone.accel
      else if df < s.HV_K1 * s.safe_distance ∧ df > s.HV_K2 * s.safe_distance then Zone.adaptive
      else Zone.braking

/-- The zone selected by the branch conditions of
`AutomaticCar.calc_acceleration` (vehicle.py lines 334, 342, 353, 361). -/
def AutomaticCar.zone (s : Vehicle) (front : Option Neighbor) : Zone :=
  match front with
  | none => Zone.accel
  | some f =>
      let df := f.position - s.position
      if df ≥ s.HV_K1 * s.safe_distance then Zone.accel
      else if df < s.HV_K1 * s.safe_distance ∧ df > s.HV_K2 * s.safe_distance then Zone.adaptive
      else if df < s.HV_K2 * s.safe_distance ∧ df > s.HV_K3 * s.safe_distance ∧
          qabs (f.velocity - s.desired_velocity) < 2 then Zone.lockin
      else Zone.braking

/-- `HumanVehicle._enough_room` (vehicle.py lines 67-88) for a front-side
diagonal neighbor: gap is `v.position - self.position`; absence always
passes; otherwise the gap must exceed
`max(v.length, self.HV_K * v.safe_distance)`. -/
def HumanVehicle.enough_room_front (s : Vehicle) (o : Option Neighbor) : Bool :=
  match o with
  | none => true
  | some v => decide (v.position - s.position > qmax v.length (s.HV_K * v.safe_distance))

/-- `HumanVehicle._enough_room` (vehicle.py lines 67-88) for a back-side
diagonal neighbor: gap is `self.position - v.position`. -/
def HumanVehicle.enough_room_back (s : Vehicle) (o : Option Neighbor) : Bool :=
  match o with
  | none => true
  | some v => decide (s.position - v.position > qmax v.length (s.HV_K * v.safe_distance))

/-- `HumanVehicle.prob_right` (vehicle.py lines 174-183): `0.9` when the
right-front neighbor is absent or not closing too fast, and both right
diagonals pass the enough-room test; else `0`. -/
def HumanVehicle.prob_right (s : Vehicle) (nb : Neighbors) : ℚ :=
  if ((match nb.right_front with
       | none => true
       | some v =>
           decide (s.velocity - v.velocity < s.epsilon) ||
           decide (v.position - s.position > s.HV_K * s.safe_distance))
      && HumanVehicle.enough_room_front s nb.right_front
      && HumanVehicle.enough_room_back s nb.right_back) = true
  then 9/10 else 0

/-- The gating condition of `HumanVehicle.prob_left` (vehicle.py lines
165-170).  The Python guard `df and df < ...` is truthiness of `df`:
it requires the front gap to exist *and* be nonzero. -/
def HumanVehicle.prob_left_gate (s : Vehicle) (nb : Neighbors) : Bool :=
  match nb.front with
  | none => false
  | some f =>
      let df := f.position - s.position
      decide (df ≠ 0)
      && decide (df < s.HV_K1 * s.safe_distance)
      && (decide (s.desired_velocity - s.velocity > s.epsilon) ||
          decide (s.desired_velocity - f.velocity > s.epsilon))
      && HumanVehicle.enough_room_front s nb.left_front
      && HumanVehicle.enough_room_back s nb.left_back
      && (match nb.left_front with
          | none => true
          | some lf =>
              decide (s.velocity ≤ lf.velocity) ||
              decide (lf.position - s.position ≥ s.HV_K1 * s.safe_distance))
      && (match nb.left_back with
          | none => true
          | some lb =>
              decide (s.velocity ≥ lb.velocity) ||
              decide (s.position - lb.position ≥ s.HV_K1 * s.safe_distance))

/-- `HumanVehicle.prob_left` (vehicle.py lines 163-172): when the gate
passes, `(safe_distance / df) ** (3/4)`, as a real power; else `0`. -/
noncomputable def HumanVehicle.prob_left (s : Vehicle) (nb : Neighbors) : ℝ :=
  match nb.front with
  | none => 0
  | some f =>
      if HumanVehicle.prob_left_gate s nb then
        (((s.safe_distance / (f.position - s.position) : ℚ) : ℝ)) ^ ((3 : ℝ)/4)
      else 0

/-- Decidable form of the comparison `p < base ** (3/4)` used by the
lane-change draw (vehicle.py lines 141, 171), for a positive base:
`p < 0` always passes (the power is positive), and for `0 ≤ p` the
comparison is raised to the fourth power.  `rpow34_lt_iff` proves this
equivalent to the real-power comparison. -/
def rpow34_lt (p base : ℚ) : Bool :=
  decide (p < 0) || decide (p * p * p * p < base * base * base)

/-- The comparison `p < p_left` of vehicle.py line 141, with `p_left`
from `prob_left`: when the gate fails `p_left` is `0`, so the test is
`p < 0`; when it passes, the test is `p < (safe_distance/df) ** (3/4)`,
rendered decidably by `rpow34_lt`. -/
def p_lt_prob_left (p : ℚ) (s : Vehicle) (nb : Neighbors) : Bool :=
  match nb.front with
  | none => decide (p < 0)
  | some f =>
      if HumanVehicle.prob_left_gate s nb then
        rpow34_lt p (s.safe_distance / (f.position - s.position))
      else decide (p < 0)

/-- Velocity cap of vehicle.py line 96: `velocity = min(desired_velocity, velocity)`. -/
def capVelocityStep (s : Vehicle) : Vehicle :=
  { s with velocity := qmin s.desired_velocity s.velocity }

/-- Safe-distance recomputation of vehicle.py line 99:
`safe_distance = max(extremely_safe_distance, velocity * safe_time)`. -/
def safeDistanceStep (s : Vehicle) : Vehicle :=
  { s with safe_distance := qmax s.extremely_safe_distance (s.velocity * s.safe_time) }

/-- Right/left lane gap guard for a front-side neighbor (vehicle.py
lines 136, 144): absent neighbor passes, else the gap must exceed the
vehicle's own `safe_distance`. -/
def gap_ok_front (s : Vehicle) (o : Option Neighbor) : Bool :=
  match o with
  | none => true
  | some v => decide (v.position - s.position > s.safe_distance)

/-- Right/left lane gap guard for a back-side neighbor (vehicle.py lines
137, 145): absent neighbor passes, else the gap must exceed the
*neighbor's* `safe_distance`. -/
def gap_ok_back (s : Vehicle) (o : Option Neighbor) : Bool :=
  match o with
  | none => true
  | some v => decide (s.position - v.position > v.safe_distance)

/-- Lane-change block of `HumanVehicle.update` (vehicle.py lines
132-148): gated by the wall-clock cooldown and `velocity > 3`; right is
attempted before left; on a change the lane and the cooldown timestamp
are updated (the `notify_lane_change` container callback carries no
vehicle state and is not modelled). -/
def laneChangeStep (conf : Conf) (nb : Neighbors) (p now : ℚ) (s : Vehicle) : Vehicle :=
  if now - s.last_lane_change > 5 / conf.speedup ∧ s.velocity > 3 then
    if decide (p < HumanVehicle.prob_right s nb)
        && decide (s.lane + 1 < conf.nb_lanes)
        && decide (s.position > 3 * s.safe_distance)
        && gap_ok_front s nb.right_front
        && gap_ok_back s nb.right_back then
      { s with lane := s.lane + 1, last_lane_change := now }
    else if p_lt_prob_left p s nb
        && decide (s.lane > 0)
        && decide (s.position > 3 * s.safe_distance)
        && gap_ok_front s nb.left_front
        && gap_ok_back s nb.left_back then
      { s with lane := s.lane - 1, last_lane_change := now }
    else s
  else s

/-- Final acceleration assignment of vehicle.py lines 160-161,
dispatching `calc_acceleration` on the variant tag (the subclass method
override): `acceleration = min(HV_AMAX, calc_acceleration(...))`. -/
def accelStep (nb : Neighbors) (s : Vehicle) : Vehicle :=
  let r := if s.auto then AutomaticCar.calc_acceleration s nb.front
           else (s, HumanVehicle.calc_acceleration s nb.front)
  { r.1 with acceleration := qmin r.1.HV_AMAX r.2 }

/-- `HumanVehicle.update` (vehicle.py lines 91-161), shared by `Car`,
`Truck` and `AutomaticCar` (whose `update` methods only call `super`):
base kinematics and emergency override, velocity cap, safe-distance
recomputation, stochastic lane change, then the acceleration update.
`p` is the tick's uniform draw `np.random.rand()`; `now` is the value
of `time.time()` during this update. -/
def HumanVehicle.update (conf : Conf) (nb : Neighbors) (dt p now : ℚ) (s : Vehicle) : Vehicle :=
  accelStep nb
    (laneChangeStep conf nb p now
      (safeDistanceStep (capVelocityStep (Vehicle.update conf nb dt s))))

/-!  Concrete instances used by the claim witnesses and counterexamples.
All numeric values lie in the construction ranges of the corresponding
variant constructor (`Car.__init__` lines 228-246 and
`AutomaticCar.__init__` lines 299-320), with `dt = 0.1` as in `main.py`.
-/

/-- A `Car` (Standard-Fast) state as produced by `Car.__init__` at lane 0,
position 0: `K=1.4`, `K1=3`, `K2=1.8`, `A0=1`, `BRAKING=9`, `length=4`,
with the randomized parameters fixed to `L=10`, `AMAX=3`,
`extremely_safe_distance=3`, `desired_velocity=32`, `epsilon=5`
(each inside its `np.random.uniform` range).  `HV_K3`/`HV_L2` are unused
by the non-automated rules and set to the `AutomaticCar` constants. -/
def carBase : Vehicle := {
  auto := false, lane := 0, position := 0, velocity := 0, acceleration := 0, emergency := 0
  HV_K := 7/5, HV_K1 := 3, HV_K2 := 9/5, HV_K3 := 11/10, HV_A0 := 1, HV_L := 10, HV_L2 := 50
  HV_AMAX := 3, HV_BRAKING := 9, length := 4, extremely_safe_distance := 3, safe_distance := 3
  desired_velocity := 32, safe_time := 9/10, epsilon := 5, last_lane_change := 0 }

/-- Configuration matching `main.py` / the visualisation defaults:
3 lanes would also do; 2 suffices for the lane-change witnesses. -/
def confBase : Conf := { nb_lanes := 2, fps := 24, speedup := 1, sound := false }

/-- Empty neighbor snapshot: an open road. -/
def nbEmpty : Neighbors :=
  { front := none, back := none, left_front := none, left_back := none
    right_front := none, right_back := none }

/-- C1 counterexample vehicle: fast enough to overshoot the front
neighbor within one `dt = 1` tick. -/
def c1veh : Vehicle := { carBase with
  velocity := 100, desired_velocity := 100, extremely_safe_distance := 4, safe_distance := 4 }

/-- C1/C4 front neighbor: stationary at position 5. -/
def c1front : Neighbor :=
  { position := 5, velocity := 0, acceleration := 0, length := 4, safe_distance := 4 }

/-- Neighbor snapshot with only the stationary front vehicle. -/
def c1nb : Neighbors := { nbEmpty with front := some c1front }

/-- C3 counterexample vehicle: an `AutomaticCar` cruising at its desired
velocity 30 behind an equally fast front vehicle. -/
def c3veh : Vehicle := { carBase with
  auto := true, velocity := 30, desired_velocity := 30
  extremely_safe_distance := 4, safe_distance := 4 }

/-- C3 front neighbor: at gap 40, inside the lock-in window
`(K3*27, K2*27) = (29.7, 48.6)` of the recomputed safe distance 27. -/
def c3front : Neighbor :=
  { position := 40, velocity := 30, acceleration := 0, length := 4, safe_distance := 4 }

/-- Neighbor snapshot for the C3 counterexample. -/
def c3nb : Neighbors := { nbEmpty with front := some c3front }

/-- C4 witness vehicle (spec Scenario B): at position 0 with velocity 15,
so the naive projected position `1.5` violates `5 - 0.99*4 = 1.04`. -/
def c4veh : Vehicle := { carBase with
  velocity := 15, extremely_safe_distance := 4, safe_distance := 4 }

/-- C6 counterexample vehicle: a stopped `AutomaticCar` whose desired
velocity matches the front vehicle's speed. -/
def c6veh : Vehicle := { carBase with
  auto := true, desired_velocity := 30, extremely_safe_distance := 4, safe_distance := 4 }

/-- C6 front neighbor: at gap 5, inside the lock-in window
`(K3*4, K2*4) = (4.4, 7.2)`, travelling at 30. -/
def c6front : Neighbor :=
  { position := 5, velocity := 30, acceleration := 0, length := 4, safe_distance := 4 }

/-- Neighbor snapshot for the C6 counterexample. -/
def c6nb : Neighbors := { nbEmpty with front := some c6front }

/-- C7 counterexample vehicle: moving at 10 on an open road, far from the
boundary, so a right lane change fires whenever the cooldown allows. -/
def c7veh : Vehicle := { carBase with
  position := 100, velocity := 10, desired_velocity := 30
  extremely_safe_distance := 4, safe_distance := 4 }

/-- C9 witness front neighbor: at gap 9, exactly `K1 * safe_distance`
for `carBase` (`3 * 3`). -/
def c9front : Neighbor :=
  { position := 9, velocity := 0, acceleration := 0, length := 4, safe_distance := 4 }

/-- C10 witness vehicle: stopped, front gap 2 below the safe distance 4,
speed deficit 30 above `epsilon = 5`. -/
def c10veh : Vehicle := { carBase with
  desired_velocity := 30, extremely_safe_distance := 4, safe_distance := 4 }

/-- C10 front neighbor at position 2: gap 2, half the safe distance. -/
def c10front : Neighbor :=
  { position := 2, velocity := 0, acceleration := 0, length := 4, safe_distance := 4 }

/-- Neighbor snapshot for the C10 witness. -/
def c10nb : Neighbors := { nbEmpty with front := some c10front }

/-!  Bridge lemmas identifying the kernel-reducible `qmin`/`qmax`/`qabs`
with Mathlib's `min`/`max`/`abs`, and basic order facts about them. -/

theorem qmin_eq_min (a b : ℚ) : qmin a b = min a b := by
  simp only [qmin, min_def]

theorem qmax_eq_max (a b : ℚ) : qmax a b = max a b := by
  simp only [qmax, max_def]
  rcases le_or_lt b a with h | h
  · rw [if_pos h]
    rcases eq_or_lt_of_le h with rfl | hlt
    · simp
    · rw [if_neg (not_le.mpr hlt)]
  · rw [if_neg (not_le.mpr h), if_pos h.le]

theorem qabs_eq_abs (a : ℚ) : qabs a = |a| := by
  simp only [qabs]
  rcases lt_or_le a 0 with h | h
  · rw [if_pos h, abs_of_neg h]
  · rw [if_neg (not_lt.mpr h), abs_of_nonneg h]

theorem le_qmax_left (a b : ℚ) : a ≤ qmax a b := by
  unfold qmax
  by_cases h : b ≤ a
  · rw [if_pos h]
  · rw [if_neg h]
    exact (not_le.mp h).le

theorem qmin_nonneg (a b : ℚ) (ha : 0 ≤ a) (hb : 0 ≤ b) : 0 ≤ qmin a b := by
  unfold qmin
  by_cases h : a ≤ b
  · rw [if_pos h]; exact ha
  · rw [if_neg h]; exact hb

theorem qmin_eq_left (a b : ℚ) (h : a ≤ b) : qmin a b = a := by
  unfold qmin; rw [if_pos h]

/-!  Structural lemmas: case characterizations of the branching steps of
the update pipeline, from which the field-preservation facts needed by
the invariant claims follow. -/

/-- `Vehicle.update` either applies the emergency correction (when the
front neighbor exists and is too close to the projected position) or
commits the naive integration. -/
theorem Vehicle.update_cases (conf : Conf) (nb : Neighbors) (dt : ℚ) (s : Vehicle) :
    (∃ f, nb.front = some f ∧
      Vehicle.update conf nb dt s =
        { s with velocity := f.velocity
                 acceleration := f.acceleration
                 position := f.position - s.extremely_safe_distance
                 emergency := conf.fps }) ∨
    Vehicle.update conf nb dt s =
      { s with position := s.position + dt * s.velocity + (1/2) * dt * dt * s.acceleration
               velocity := qmax 0 (s.velocity + s.acceleration * dt)
               emergency := s.emergency - 1 } := by
  unfold Vehicle.update
  rcases hnb : nb.front with _ | f
  · right; rfl
  · dsimp only
    split_ifs with h
    · left; exact ⟨f, rfl, rfl⟩
    · right; rfl

/-- The lane-change step leaves the state unchanged or moves exactly one
lane (right first), stamping the cooldown timer. -/
theorem laneChangeStep_cases (conf : Conf) (nb : Neighbors) (p now : ℚ) (s : Vehicle) :
    laneChangeStep conf nb p now s = s ∨
    laneChangeStep conf nb p now s = { s with lane := s.lane + 1, last_lane_change := now } ∨
    laneChangeStep conf nb p now s = { s with lane := s.lane - 1, last_lane_change := now } := by
  unfold laneChangeStep
  split_ifs <;> first
    | exact Or.inl rfl
    | exact Or.inr (Or.inl rfl)
    | exact Or.inr (Or.inr rfl)

/-- When the cooldown or minimum-speed guard fails, the lane-change step
is the identity. -/
theorem laneChangeStep_guard_false (conf : Conf) (nb : Neighbors) (p now : ℚ) (s : Vehicle)
    (h : ¬ (now - s.last_lane_change > 5 / conf.speedup ∧ s.velocity > 3)) :
    laneChangeStep conf nb p now s = s := by
  unfold laneChangeStep
  rw [if_neg h]

/-- The state returned by `AutomaticCar.calc_acceleration` is either
untouched or the lock-in snap (velocity from the front vehicle, the
safe distance conditionally decremented). -/
theorem AutomaticCar.calc_acceleration_fst_cases (s : Vehicle) (front : Option Neighbor) :
    (AutomaticCar.calc_acceleration s front).1 = s ∨
    ∃ f, front = some f ∧
      (AutomaticCar.calc_acceleration s front).1 =
        { s with velocity := f.velocity
                 safe_distance :=
                   if s.safe_distance > 2 then s.safe_distance - 1 else s.safe_distance } := by
  unfold AutomaticCar.calc_acceleration
  rcases front with _ | f
  · left; rfl
  · dsimp only
    split_ifs <;> first
      | (left; rfl)
      | exact Or.inr ⟨f, rfl, rfl⟩

/-- The acceleration step only writes `acceleration`, except that for an
Automated vehicle the lock-in snap may also write `velocity` and
`safe_distance`. -/
theorem accelStep_cases (nb : Neighbors) (s : Vehicle) :
    (∃ a, accelStep nb s = { s with acceleration := a }) ∨
    (∃ f a, nb.front = some f ∧
      accelStep nb s =
        { s with velocity := f.velocity
                 safe_distance :=
                   if s.safe_distance > 2 then s.safe_distance - 1 else s.safe_distance
                 acceleration := a }) := by
  cases hs : s.auto
  · left
    exact ⟨qmin s.HV_AMAX (HumanVehicle.calc_acceleration s nb.front),
      by simp [accelStep, hs]⟩
  · rcases AutomaticCar.calc_acceleration_fst_cases s nb.front with h | ⟨f, hf, h⟩
    · left
      exact ⟨qmin (AutomaticCar.calc_acceleration s nb.front).1.HV_AMAX
        (AutomaticCar.calc_acceleration s nb.front).2, by simp [accelStep, hs, h]⟩
    · right
      exact ⟨f, qmin (AutomaticCar.calc_acceleration s nb.front).1.HV_AMAX
        (AutomaticCar.calc_acceleration s nb.front).2, hf, by simp [accelStep, hs, h]⟩

/-- `Vehicle.update` writes only `position`, `velocity`, `acceleration`
and `emergency`. -/
theorem Vehicle.update_shape (conf : Conf) (nb : Neighbors) (dt : ℚ) (s : Vehicle) :
    ∃ pos vel acc em, Vehicle.update conf nb dt s =
      { s with position := pos, velocity := vel, acceleration := acc, emergency := em } := by
  rcases Vehicle.update_cases conf nb dt s with ⟨f, hf, h⟩ | h
  · exact ⟨_, _, _, _, by rw [h]⟩
  · exact ⟨_, _, _, _, by rw [h]⟩

/-- The lane-change step writes only `lane` and `last_lane_change`. -/
theorem laneChangeStep_shape (conf : Conf) (nb : Neighbors) (p now : ℚ) (s : Vehicle) :
    ∃ l t, laneChangeStep conf nb p now s = { s with lane := l, last_lane_change := t } := by
  rcases laneChangeStep_cases conf nb p now s with h | h | h
  · exact ⟨s.lane, s.last_lane_change, by rw [h]⟩
  · exact ⟨s.lane + 1, now, by rw [h]⟩
  · exact ⟨s.lane - 1, now, by rw [h]⟩

/-- The acceleration step writes only `velocity`, `safe_distance` (in the
Automated lock-in snap) and `acceleration`. -/
theorem accelStep_shape (nb : Neighbors) (s : Vehicle) :
    ∃ vel sd acc, accelStep nb s =
      { s with velocity := vel, safe_distance := sd, acceleration := acc } := by
  rcases accelStep_cases nb s with ⟨a, h⟩ | ⟨f, a, hf, h⟩
  · exact ⟨s.velocity, s.safe_distance, a, by rw [h]⟩
  · exact ⟨f.velocity, _, a, by rw [h]⟩

theorem Vehicle.update_desired (conf : Conf) (nb : Neighbors) (dt : ℚ) (s : Vehicle) :
    (Vehicle.update conf nb dt s).desired_velocity = s.desired_velocity := by
  obtain ⟨pos, vel, acc, em, h⟩ := Vehicle.update_shape conf nb dt s
  rw [h]

theorem Vehicle.update_auto (conf : Conf) (nb : Neighbors) (dt : ℚ) (s : Vehicle) :
    (Vehicle.update conf nb dt s).auto = s.auto := by
  obtain ⟨pos, vel, acc, em, h⟩ := Vehicle.update_shape conf nb dt s
  rw [h]

theorem Vehicle.update_lane (conf : Conf) (nb : Neighbors) (dt : ℚ) (s : Vehicle) :
    (Vehicle.update conf nb dt s).lane = s.lane := by
  obtain ⟨pos, vel, acc, em, h⟩ := Vehicle.update_shape conf nb dt s
  rw [h]

theorem Vehicle.update_llc (conf : Conf) (nb : Neighbors) (dt : ℚ) (s : Vehicle) :
    (Vehicle.update conf nb dt s).last_lane_change = s.last_lane_change := by
  obtain ⟨pos, vel, acc, em, h⟩ := Vehicle.update_shape conf nb dt s
  rw [h]

theorem Vehicle.update_esd (conf : Conf) (nb : Neighbors) (dt : ℚ) (s : Vehicle) :
    (Vehicle.update conf nb dt s).extremely_safe_distance = s.extremely_safe_distance := by
  obtain ⟨pos, vel, acc, em, h⟩ := Vehicle.update_shape conf nb dt s
  rw [h]

theorem Vehicle.update_epsilon (conf : Conf) (nb : Neighbors) (dt : ℚ) (s : Vehicle) :
    (Vehicle.update conf nb dt s).epsilon = s.epsilon := by
  obtain ⟨pos, vel, acc, em, h⟩ := Vehicle.update_shape conf nb dt s
  rw [h]

theorem Vehicle.update_AMAX (conf : Conf) (nb : Neighbors) (dt : ℚ) (s : Vehicle) :
    (Vehicle.update conf nb dt s).HV_AMAX = s.HV_AMAX := by
  obtain ⟨pos, vel, acc, em, h⟩ := Vehicle.update_shape conf nb dt s
  rw [h]

theorem Vehicle.update_HVL (conf : Conf) (nb : Neighbors) (dt : ℚ) (s : Vehicle) :
    (Vehicle.update conf nb dt s).HV_L = s.HV_L := by
  obtain ⟨pos, vel, acc, em, h⟩ := Vehicle.update_shape conf nb dt s
  rw [h]

theorem Vehicle.update_A0 (conf : Conf) (nb : Neighbors) (dt : ℚ) (s : Vehicle) :
    (Vehicle.update conf nb dt s).HV_A0 = s.HV_A0 := by
  obtain ⟨pos, vel, acc, em, h⟩ := Vehicle.update_shape conf nb dt s
  rw [h]

/-- The velocity committed by `Vehicle.update` is nonnegative as long as
a present front neighbor's velocity is (`max(0, ...)` in the naive
branch, the front vehicle's velocity in the emergency branch). -/
theorem Vehicle.update_velocity_nonneg (conf : Conf) (nb : Neighbors) (dt : ℚ) (s : Vehicle)
    (hfv : ∀ f, nb.front = some f → 0 ≤ f.velocity) :
    0 ≤ (Vehicle.update conf nb dt s).velocity := by
  rcases Vehicle.update_cases conf nb dt s with ⟨f, hf, h⟩ | h <;> rw [h]
  · exact hfv f hf
  · exact le_qmax_left 0 _

/-- The full update commits the position chosen by the kinematics step
`Vehicle.update`: no later step of `HumanVehicle.update` writes it. -/
theorem HumanVehicle.update_position (conf : Conf) (nb : Neighbors) (dt p now : ℚ) (s : Vehicle) :
    (HumanVehicle.update conf nb dt p now s).position = (Vehicle.update conf nb dt s).position := by
  unfold HumanVehicle.update
  obtain ⟨l, t, h2⟩ := laneChangeStep_shape conf nb p now
    (safeDistanceStep (capVelocityStep (Vehicle.update conf nb dt s)))
  rw [h2]
  obtain ⟨vel2, sd2, acc2, h3⟩ := accelStep_shape nb _
  rw [h3]
  rfl

/-- `extremely_safe_distance` is never written by any step of the update
pipeline. -/
theorem HumanVehicle.update_preserves_esd (conf : Conf) (nb : Neighbors) (dt p now : ℚ) (s : Vehicle) :
    (HumanVehicle.update conf nb dt p now s).extremely_safe_distance =
      s.extremely_safe_distance := by
  unfold HumanVehicle.update
  obtain ⟨l, t, h2⟩ := laneChangeStep_shape conf nb p now
    (safeDistanceStep (capVelocityStep (Vehicle.update conf nb dt s)))
  rw [h2]
  obtain ⟨vel2, sd2, acc2, h3⟩ := accelStep_shape nb _
  rw [h3]
  exact Vehicle.update_esd conf nb dt s

/-!  Faithfulness of the decidable lane-change comparison: `rpow34_lt`
decides exactly the real-power comparison `p < base ** (3/4)` used by
the source, for the positive bases that occur (safe distance over a
positive front gap). -/

/-- For `0 ≤ p` and `0 < base`, `rpow34_lt p base` decides
`(p : ℝ) < (base : ℝ) ^ (3/4)`. -/
theorem rpow34_lt_iff (p base : ℚ) (hp : 0 ≤ p) (hb : 0 < base) :
    rpow34_lt p base = true ↔ (p : ℝ) < (base : ℝ) ^ ((3 : ℝ)/4) := by
  have hbR : (0:ℝ) < (base : ℝ) := by exact_mod_cast hb
  have hpR : (0:ℝ) ≤ (p : ℝ) := by exact_mod_cast hp
  have ht0 : (0:ℝ) ≤ (base : ℝ) ^ ((3 : ℝ)/4) := Real.rpow_nonneg hbR.le _
  have ht4 : ((base : ℝ) ^ ((3 : ℝ)/4)) ^ (4 : ℕ) = (base : ℝ) ^ (3 : ℕ) := by
    rw [← Real.rpow_natCast ((base : ℝ) ^ ((3 : ℝ)/4)) 4, ← Real.rpow_mul hbR.le,
      ← Real.rpow_natCast (base : ℝ) 3]
    norm_num
  have hiff : (p : ℝ) < (base : ℝ) ^ ((3 : ℝ)/4) ↔
      ((p : ℝ))^(4:ℕ) < ((base : ℝ) ^ ((3 : ℝ)/4))^(4:ℕ) :=
    (pow_lt_pow_iff_left₀ hpR ht0 (by norm_num)).symm
  rw [ht4] at hiff
  unfold rpow34_lt
  rw [Bool.or_eq_true, decide_eq_true_eq, decide_eq_true_eq]
  constructor
  · rintro (h | h)
    · exact absurd h (not_lt.mpr hp)
    · rw [hiff]
      calc ((p : ℝ))^(4:ℕ) = ((p*p*p*p : ℚ) : ℝ) := by push_cast; ring
        _ < ((base*base*base : ℚ) : ℝ) := by exact_mod_cast h
        _ = ((base : ℝ))^(3:ℕ) := by push_cast; ring
  · intro h
    right
    have h4 : ((p : ℝ))^(4:ℕ) < ((base : ℝ))^(3:ℕ) := hiff.mp h
    have hR : ((p*p*p*p : ℚ) : ℝ) < ((base*base*base : ℚ) : ℝ) := by
      calc ((p*p*p*p : ℚ) : ℝ) = ((p : ℝ))^(4:ℕ) := by push_cast; ring
        _ < ((base : ℝ))^(3:ℕ) := h4
        _ = ((base*base*base : ℚ) : ℝ) := by push_cast; ring
    exact_mod_cast hR

/-- The boolean comparison used inside `laneChangeStep` agrees with the
real comparison `p < prob_left` whenever the draw is nonnegative, the
safe distance is positive, and any front neighbor is genuinely ahead. -/
theorem p_lt_prob_left_spec (pq : ℚ) (s : Vehicle) (nb : Neighbors) (hp : 0 ≤ pq)
    (hsd : 0 < s.safe_distance)
    (hdf : ∀ f, nb.front = some f → s.position < f.position) :
    (p_lt_prob_left pq s nb = true ↔ (pq : ℝ) < HumanVehicle.prob_left s nb) := by
  have hp0R : (0:ℝ) ≤ (pq : ℝ) := by exact_mod_cast hp
  rcases hnb : nb.front with _ | f
  · have e1 : p_lt_prob_left pq s nb = decide (pq < 0) := by
      unfold p_lt_prob_left
      rw [hnb]
    have e2 : HumanVehicle.prob_left s nb = 0 := by
      unfold HumanVehicle.prob_left
      rw [hnb]
    rw [e1, e2, decide_eq_true_eq]
    constructor
    · intro h; exact absurd h (not_lt.mpr hp)
    · intro h; exact absurd h (not_lt.mpr hp0R)
  · have hgap : 0 < f.position - s.position := sub_pos.mpr (hdf f hnb)
    cases hg : HumanVehicle.prob_left_gate s nb
    · have hg' : ¬ (HumanVehicle.prob_left_gate s nb = true) := by rw [hg]; simp
      have e1 : p_lt_prob_left pq s nb = decide (pq < 0) := by
        unfold p_lt_prob_left
        rw [hnb]
        dsimp only
        rw [if_neg hg']
      have e2 : HumanVehicle.prob_left s nb = 0 := by
        unfold HumanVehicle.prob_left
        rw [hnb]
        dsimp only
        rw [if_neg hg']
      rw [e1, e2, decide_eq_true_eq]
      constructor
      · intro h; exact absurd h (not_lt.mpr hp)
      · intro h; exact absurd h (not_lt.mpr hp0R)
    · have e1 : p_lt_prob_left pq s nb =
          rpow34_lt pq (s.safe_distance / (f.position - s.position)) := by
        unfold p_lt_prob_left
        rw [hnb]
        dsimp only
        rw [if_pos hg]
      have e2 : HumanVehicle.prob_left s nb =
          ((s.safe_distance / (f.position - s.position) : ℚ) : ℝ) ^ ((3 : ℝ)/4) := by
        unfold HumanVehicle.prob_left
        rw [hnb]
        dsimp only
        rw [if_pos hg]
      rw [e1, e2]
      exact rpow34_lt_iff pq _ hp (div_pos hsd hgap)

/-!  Claim theorems.  -/

/-- After `Vehicle.update` the absolute separation from the front
neighbor is at least `0.99 * extremely_safe_distance`: the emergency
branch resets it to exactly `extremely_safe_distance`, and the naive
branch only commits when the guard already grants the bound. -/
theorem vehicle_update_abs_gap (conf : Conf) (nb : Neighbors) (dt : ℚ) (s : Vehicle)
    (f : Neighbor) (hf : nb.front = some f) :
    (99/100) * s.extremely_safe_distance ≤
      qabs (f.position - (Vehicle.update conf nb dt s).position) := by
  unfold Vehicle.update
  rw [hf]
  dsimp only
  split_ifs with h
  · have he : f.position - (f.position - s.extremely_safe_distance) =
        s.extremely_safe_distance := by ring
    show (99/100) * s.extremely_safe_distance ≤
      qabs (f.position - (f.position - s.extremely_safe_distance))
    rw [he]
    unfold qabs
    split_ifs with h2
    · linarith
    · linarith
  · exact not_lt.mp h

/-- C1 (corrected): for every vehicle with a same-lane front neighbor,
after one `HumanVehicle.update` the *absolute* longitudinal separation
`|front.position - position|` is at least
`0.99 * extremely_safe_distance`.  (The signed gap of the original claim
can be negative: the naive integration may overshoot past the front
vehicle, see `c1_gap_counterexample`.) -/
theorem c1_abs_gap_invariant (conf : Conf) (nb : Neighbors) (dt p now : ℚ) (s : Vehicle)
    (f : Neighbor) (hf : nb.front = some f) :
    (99/100) * s.extremely_safe_distance ≤
      qabs (f.position - (HumanVehicle.update conf nb dt p now s).position) := by
  rw [HumanVehicle.update_position]
  exact vehicle_update_abs_gap conf nb dt s f hf

/-- C1 witness: the absolute-gap bound evaluated on the Scenario-B style
emergency state. -/
theorem c1_abs_gap_invariant_witness :
    (99/100) * c4veh.extremely_safe_distance ≤
      qabs (c1front.position - (HumanVehicle.update confBase c1nb (1/10) (1/2) 0 c4veh).position) :=
  c1_abs_gap_invariant confBase c1nb (1/10) (1/2) 0 c4veh c1front rfl

/-- C1 counterexample: a vehicle at velocity 100 with `dt = 1` overshoots
the stationary front vehicle at position 5 (projected position 100, so
the emergency guard `|5 - 100| < 3.96` does not fire), leaving a signed
gap of `-95`, far below `0.99 * extremely_safe_distance = 3.96`. -/
theorem c1_gap_counterexample :
    ¬ ((99/100) * c1veh.extremely_safe_distance ≤
       c1front.position - (HumanVehicle.update confBase c1nb 1 (1/2) 0 c1veh).position) := by
  have hpos : (HumanVehicle.update confBase c1nb 1 (1/2) 0 c1veh).position = 100 := by
    norm_num [HumanVehicle.update, accelStep, laneChangeStep, safeDistanceStep, capVelocityStep,
      Vehicle.update, HumanVehicle.calc_acceleration, HumanVehicle.accel_rule,
      HumanVehicle.adaptive_rule, HumanVehicle.braking_rule,
      HumanVehicle.prob_right, HumanVehicle.enough_room_front, HumanVehicle.enough_room_back,
      p_lt_prob_left, HumanVehicle.prob_left_gate, rpow34_lt, gap_ok_front, gap_ok_back,
      qmin, qmax, qabs, c1veh, carBase, confBase, nbEmpty, c1nb, c1front]
  rw [hpos]
  norm_num [c1veh, carBase, c1front]

/-- C4 (confirmed): when the front neighbor exists and the projected
position violates `|front.position - new_position| <
0.99 * extremely_safe_distance`, `Vehicle.update` applies the emergency
correction exactly: velocity and acceleration are copied from the front
vehicle, the position is clamped to
`front.position - extremely_safe_distance`, and the emergency countdown
is set to `fps`. -/
theorem c4_emergency_correction (conf : Conf) (nb : Neighbors) (dt : ℚ) (s : Vehicle)
    (f : Neighbor) (hf : nb.front = some f)
    (hclose : qabs (f.position - (s.position + dt * s.velocity + (1/2) * dt * dt * s.acceleration))
        < (99/100) * s.extremely_safe_distance) :
    Vehicle.update conf nb dt s =
      { s with velocity := f.velocity
               acceleration := f.acceleration
               position := f.position - s.extremely_safe_distance
               emergency := conf.fps } := by
  unfold Vehicle.update
  rw [hf]
  dsimp only
  rw [if_pos hclose]

/-- C4 witness (spec Scenario B): front stationary at 5, self at 0 with
`extremely_safe_distance = 4`, velocity 15, `dt = 0.1`: projected
position `1.5` triggers the correction, leaving `position = 1.0`,
`velocity = 0` and the countdown at `fps = 24`. -/
theorem c4_emergency_correction_witness :
    (Vehicle.update confBase c1nb (1/10) c4veh).position = 1 ∧
    (Vehicle.update confBase c1nb (1/10) c4veh).velocity = 0 ∧
    (Vehicle.update confBase c1nb (1/10) c4veh).emergency = 24 := by
  have h := c4_emergency_correction confBase c1nb (1/10) c4veh c1front rfl
    (by norm_num [qabs, c4veh, carBase, c1front])
  rw [h]
  refine ⟨?_, ?_, ?_⟩ <;> norm_num [c1front, c4veh, carBase, confBase]

/-- C9 (confirmed): a front gap of exactly `K1 * safe_distance` falls in
the Acceleration zone (the boundary test `df >= K1 * safe_distance` is
inclusive), for both the human and the automated controller, and the
returned acceleration is the free-flow rule. -/
theorem c9_zone_boundary (s : Vehicle) (f : Neighbor)
    (h : f.position - s.position = s.HV_K1 * s.safe_distance) :
    HumanVehicle.zone s (some f) = Zone.accel ∧
    AutomaticCar.zone s (some f) = Zone.accel ∧
    HumanVehicle.calc_acceleration s (some f) = HumanVehicle.accel_rule s ∧
    AutomaticCar.calc_acceleration s (some f) = (s, HumanVehicle.accel_rule s) := by
  have hge : s.HV_K1 * s.safe_distance ≤ f.position - s.position := le_of_eq h.symm
  refine ⟨?_, ?_, ?_, ?_⟩
  · unfold HumanVehicle.zone
    dsimp only
    rw [if_pos hge]
  · unfold AutomaticCar.zone
    dsimp only
    rw [if_pos hge]
  · unfold HumanVehicle.calc_acceleration
    dsimp only
    rw [if_pos hge]
  · unfold AutomaticCar.calc_acceleration
    dsimp only
    rw [if_pos hge]

/-- C9 witness: `carBase` (safe distance 3, `K1 = 3`) with a front
neighbor at gap exactly 9. -/
theorem c9_zone_boundary_witness :
    HumanVehicle.zone carBase (some c9front) = Zone.accel ∧
    AutomaticCar.zone carBase (some c9front) = Zone.accel :=
  ⟨(c9_zone_boundary carBase c9front (by norm_num [carBase, c9front])).1,
   (c9_zone_boundary carBase c9front (by norm_num [carBase, c9front])).2.1⟩

/-- C2 (confirmed): after `HumanVehicle.update` the velocity is
nonnegative, provided every neighboring vehicle's velocity was
nonnegative before the tick.  The hypothesis
`0 ≤ desired_velocity` holds for every constructed vehicle (all three
variant constructors draw it from `[18, 35]`); it is needed because the
cap at vehicle.py line 96 takes `min(desired_velocity, velocity)`. -/
theorem c2_velocity_nonneg (conf : Conf) (nb : Neighbors) (dt p now : ℚ) (s : Vehicle)
    (hdes : 0 ≤ s.desired_velocity)
    (hfv : ∀ f, nb.front = some f → 0 ≤ f.velocity) :
    0 ≤ (HumanVehicle.update conf nb dt p now s).velocity := by
  unfold HumanVehicle.update
  set s1 := Vehicle.update conf nb dt s with hs1
  set s2 := capVelocityStep s1 with hs2
  set s3 := safeDistanceStep s2 with hs3
  set s4 := laneChangeStep conf nb p now s3 with hs4
  have hv1 : 0 ≤ s1.velocity := Vehicle.update_velocity_nonneg conf nb dt s hfv
  have hd1 : s1.desired_velocity = s.desired_velocity := Vehicle.update_desired conf nb dt s
  have hv2 : 0 ≤ s2.velocity := by
    rw [hs2]
    show 0 ≤ qmin s1.desired_velocity s1.velocity
    exact qmin_nonneg _ _ (by rw [hd1]; exact hdes) hv1
  have hv3 : 0 ≤ s3.velocity := hv2
  have hv4 : 0 ≤ s4.velocity := by
    obtain ⟨l, t, h⟩ := laneChangeStep_shape conf nb p now s3
    rw [hs4, h]
    exact hv3
  rcases accelStep_cases nb s4 with ⟨a, h⟩ | ⟨f, a, hf, h⟩
  · rw [h]
    exact hv4
  · rw [h]
    show 0 ≤ f.velocity
    exact hfv f hf

/-- C2 witness: the Scenario-B state (stationary front neighbor) keeps a
nonnegative velocity through the update. -/
theorem c2_velocity_nonneg_witness :
    0 ≤ (HumanVehicle.update confBase c1nb (1/10) (1/2) 0 c4veh).velocity :=
  c2_velocity_nonneg confBase c1nb (1/10) (1/2) 0 c4veh
    (by norm_num [c4veh, carBase])
    (fun f hf => by
      have hf2 : some c1front = some f := hf
      injection hf2 with h2
      rw [← h2]
      norm_num [c1front])

/-- For a non-Automated vehicle the acceleration step dispatches to
`HumanVehicle.calc_acceleration`, which leaves the state alone: only
`acceleration` is written. -/
theorem accelStep_of_not_auto (nb : Neighbors) (s : Vehicle) (hs : s.auto = false) :
    accelStep nb s =
      { s with acceleration := qmin s.HV_AMAX (HumanVehicle.calc_acceleration s nb.front) } := by
  simp [accelStep, hs]

/-- C6 (corrected): for every non-Automated vehicle,
`safe_distance ≥ extremely_safe_distance` holds after every update (the
recomputation `safe_distance = max(extremely_safe_distance, ...)` at
vehicle.py line 99 is the last write).  For Automated vehicles the
lock-in branch can decrement `safe_distance` below
`extremely_safe_distance`, see `c6_safe_distance_counterexample`. -/
theorem c6_safe_distance_amended (conf : Conf) (nb : Neighbors) (dt p now : ℚ) (s : Vehicle)
    (hauto : s.auto = false) :
    (HumanVehicle.update conf nb dt p now s).extremely_safe_distance ≤
      (HumanVehicle.update conf nb dt p now s).safe_distance := by
  unfold HumanVehicle.update
  set s1 := Vehicle.update conf nb dt s with hs1
  set s2 := capVelocityStep s1 with hs2
  set s3 := safeDistanceStep s2 with hs3
  set s4 := laneChangeStep conf nb p now s3 with hs4
  obtain ⟨l, t, hlc⟩ := laneChangeStep_shape conf nb p now s3
  have hauto4 : s4.auto = false := by
    rw [hs4, hlc]
    show s1.auto = false
    rw [Vehicle.update_auto conf nb dt s, hauto]
  rw [accelStep_of_not_auto nb s4 hauto4]
  show s4.extremely_safe_distance ≤ s4.safe_distance
  rw [hs4, hlc]
  show s2.extremely_safe_distance ≤ qmax s2.extremely_safe_distance (s2.velocity * s2.safe_time)
  exact le_qmax_left _ _

/-- C6 witness: a non-Automated vehicle on an open road. -/
theorem c6_safe_distance_amended_witness :
    (HumanVehicle.update confBase nbEmpty (1/10) (1/2) 0 carBase).extremely_safe_distance ≤
      (HumanVehicle.update confBase nbEmpty (1/10) (1/2) 0 carBase).safe_distance :=
  c6_safe_distance_amended confBase nbEmpty (1/10) (1/2) 0 carBase rfl

/-- C6 counterexample: a stopped AutomaticCar behind a front vehicle at
gap 5 moving at its desired velocity 30 enters the lock-in branch (the
`np.absolute` of line 354 is applied to the boolean `velocity - vf < 1`,
which holds for `0 - 30`), whose decrement leaves
`safe_distance = 3 < 4 = extremely_safe_distance` after the update. -/
theorem c6_safe_distance_counterexample :
    ¬ ((HumanVehicle.update confBase c6nb 0 (1/2) 0 c6veh).extremely_safe_distance ≤
       (HumanVehicle.update confBase c6nb 0 (1/2) 0 c6veh).safe_distance) := by
  have h1 : (HumanVehicle.update confBase c6nb 0 (1/2) 0 c6veh).extremely_safe_distance = 4 := by
    norm_num [HumanVehicle.update, accelStep, laneChangeStep, safeDistanceStep, capVelocityStep,
      Vehicle.update, AutomaticCar.calc_acceleration, HumanVehicle.accel_rule,
      HumanVehicle.adaptive_rule, HumanVehicle.braking_rule,
      qmin, qmax, qabs, c6veh, carBase, confBase, nbEmpty, c6nb, c6front]
  have h2 : (HumanVehicle.update confBase c6nb 0 (1/2) 0 c6veh).safe_distance = 3 := by
    norm_num [HumanVehicle.update, accelStep, laneChangeStep, safeDistanceStep, capVelocityStep,
      Vehicle.update, AutomaticCar.calc_acceleration, HumanVehicle.accel_rule,
      HumanVehicle.adaptive_rule, HumanVehicle.braking_rule,
      qmin, qmax, qabs, c6veh, carBase, confBase, nbEmpty, c6nb, c6front]
  rw [h1, h2]
  norm_num

/-- C7 (corrected): the update is a pure function of the vehicle state,
the neighbor snapshot, the tick's random draw and the wall-clock time:
equal inputs give identical post-states.  The original claim omitted the
wall-clock input `now` (`time.time()` at vehicle.py lines 132, 140,
148), on which the result genuinely depends, see
`c7_wall_clock_counterexample`. -/
theorem c7_determinism_amended (conf : Conf) (nb : Neighbors) (dt p now : ℚ) (s t : Vehicle)
    (h : s = t) :
    HumanVehicle.update conf nb dt p now s = HumanVehicle.update conf nb dt p now t := by
  rw [h]

/-- C7 witness: repeated evaluation at one fixed input tuple. -/
theorem c7_determinism_amended_witness :
    HumanVehicle.update confBase nbEmpty 0 (1/2) 100 c7veh =
      HumanVehicle.update confBase nbEmpty 0 (1/2) 100 c7veh :=
  c7_determinism_amended confBase nbEmpty 0 (1/2) 100 c7veh c7veh rfl

/-- C7 counterexample: same state, same draw, same snapshot, but two
different wall-clock instants (`now = 100` past the cooldown, `now = 1`
inside it): the first run changes lane, the second does not, so the
post-states differ. -/
theorem c7_wall_clock_counterexample :
    HumanVehicle.update confBase nbEmpty 0 (1/2) 100 c7veh ≠
      HumanVehicle.update confBase nbEmpty 0 (1/2) 1 c7veh := by
  have h1 : (HumanVehicle.update confBase nbEmpty 0 (1/2) 100 c7veh).lane = 1 := by
    norm_num [HumanVehicle.update, accelStep, laneChangeStep, safeDistanceStep, capVelocityStep,
      Vehicle.update, HumanVehicle.calc_acceleration, HumanVehicle.accel_rule,
      HumanVehicle.prob_right, HumanVehicle.enough_room_front, HumanVehicle.enough_room_back,
      p_lt_prob_left, HumanVehicle.prob_left_gate, rpow34_lt, gap_ok_front, gap_ok_back,
      qmin, qmax, qabs, c7veh, carBase, confBase, nbEmpty]
  have h2 : (HumanVehicle.update confBase nbEmpty 0 (1/2) 1 c7veh).lane = 0 := by
    norm_num [HumanVehicle.update, accelStep, laneChangeStep, safeDistanceStep, capVelocityStep,
      Vehicle.update, HumanVehicle.calc_acceleration, HumanVehicle.accel_rule,
      HumanVehicle.prob_right, HumanVehicle.enough_room_front, HumanVehicle.enough_room_back,
      p_lt_prob_left, HumanVehicle.prob_left_gate, rpow34_lt, gap_ok_front, gap_ok_back,
      qmin, qmax, qabs, c7veh, carBase, confBase, nbEmpty]
  intro h
  rw [h, h2] at h1
  exact absurd h1 (by norm_num)

/-- C8 (confirmed): each update changes the lane by at most one, and no
lane change happens (lane and cooldown timestamp are untouched) when the
post-cap velocity `min(desired_velocity, velocity)` is at most 3 or the
update falls inside the cooldown window `5.0 / speedup` since the last
change. -/
theorem c8_lane_change_suppression (conf : Conf) (nb : Neighbors) (dt p now : ℚ) (s : Vehicle) :
    ((HumanVehicle.update conf nb dt p now s).lane = s.lane ∨
     (HumanVehicle.update conf nb dt p now s).lane = s.lane + 1 ∨
     (HumanVehicle.update conf nb dt p now s).lane = s.lane - 1) ∧
    ((qmin s.desired_velocity (Vehicle.update conf nb dt s).velocity ≤ 3 ∨
        now - s.last_lane_change ≤ 5 / conf.speedup) →
      (HumanVehicle.update conf nb dt p now s).lane = s.lane ∧
      (HumanVehicle.update conf nb dt p now s).last_lane_change = s.last_lane_change) := by
  unfold HumanVehicle.update
  set s1 := Vehicle.update conf nb dt s with hs1
  set s3 := safeDistanceStep (capVelocityStep s1) with hs3
  set s4 := laneChangeStep conf nb p now s3 with hs4
  have hlane3 : s3.lane = s.lane := by
    show s1.lane = s.lane
    exact Vehicle.update_lane conf nb dt s
  have hllc3 : s3.last_lane_change = s.last_lane_change := by
    show s1.last_lane_change = s.last_lane_change
    exact Vehicle.update_llc conf nb dt s
  obtain ⟨vel2, sd2, acc2, hacc⟩ := accelStep_shape nb s4
  constructor
  · rcases laneChangeStep_cases conf nb p now s3 with h | h | h
    · left
      rw [hacc, hs4, h, hlane3]
    · right; left
      rw [hacc, hs4, h]
      show s3.lane + 1 = s.lane + 1
      rw [hlane3]
    · right; right
      rw [hacc, hs4, h]
      show s3.lane - 1 = s.lane - 1
      rw [hlane3]
  · intro hguard
    have hv3 : s3.velocity = qmin s.desired_velocity s1.velocity := by
      show qmin s1.desired_velocity s1.velocity = _
      rw [Vehicle.update_desired conf nb dt s]
    have hfalse : ¬ (now - s3.last_lane_change > 5 / conf.speedup ∧ s3.velocity > 3) := by
      rintro ⟨ht, hvel⟩
      rcases hguard with hg | hg
      · rw [hv3] at hvel
        exact absurd hvel (not_lt.mpr hg)
      · rw [hllc3] at ht
        exact absurd ht (not_lt.mpr hg)
    have h4 : s4 = s3 := by
      rw [hs4]
      exact laneChangeStep_guard_false conf nb p now s3 hfalse
    constructor
    · rw [hacc, h4, hlane3]
    · rw [hacc, h4, hllc3]

/-- C8 witness: `carBase` starts at velocity 0, so the cap keeps it at 0
and no lane change can occur in its first tick. -/
theorem c8_lane_change_suppression_witness :
    (HumanVehicle.update confBase nbEmpty (1/10) (1/2) 0 carBase).lane = carBase.lane :=
  ((c8_lane_change_suppression confBase nbEmpty (1/10) (1/2) 0 carBase).2
    (Or.inl (by norm_num [Vehicle.update, qmin, qmax, carBase, nbEmpty]))).1

/-- C3 (corrected): in the Automated lock-in zone
(`K3 * safe_distance < df < K2 * safe_distance`,
`|vf - desired_velocity| < 2`), whenever `velocity - vf < 1` (the
`np.absolute` of vehicle.py line 354 is applied to this boolean, so the
test is one-sided; in particular it holds whenever `|velocity - vf| < 1`
as the claim assumed) the controller snaps `velocity = vf`, returns
`a = 0`, and decrements `safe_distance` — not
`extremely_safe_distance` — by 1 when it exceeds 2 (line 358). -/
theorem c3_lockin_amended (s : Vehicle) (f : Neighbor)
    (h1 : f.position - s.position < s.HV_K1 * s.safe_distance)
    (h2 : f.position - s.position < s.HV_K2 * s.safe_distance)
    (h3 : s.HV_K3 * s.safe_distance < f.position - s.position)
    (h4 : qabs (f.velocity - s.desired_velocity) < 2)
    (h5 : s.velocity - f.velocity < 1) :
    AutomaticCar.calc_acceleration s (some f) =
      ({ s with velocity := f.velocity
                safe_distance :=
                  if s.safe_distance > 2 then s.safe_distance - 1 else s.safe_distance }, 0) := by
  unfold AutomaticCar.calc_acceleration
  dsimp only
  rw [if_neg (not_le.mpr h1), if_neg (fun hc => absurd hc.2 (not_lt.mpr h2.le)),
    if_pos ⟨h2, h3, h4⟩, if_pos h5]

/-- C3 witness: the lock-in snap evaluated on the C6 state (gap 5,
`safe_distance = 4`, front at the desired velocity 30, self stopped). -/
theorem c3_lockin_amended_witness :
    AutomaticCar.calc_acceleration c6veh (some c6front) =
      ({ c6veh with velocity := 30, safe_distance := 3 }, 0) := by
  have h := c3_lockin_amended c6veh c6front
    (by norm_num [c6veh, carBase, c6front])
    (by norm_num [c6veh, carBase, c6front])
    (by norm_num [c6veh, carBase, c6front])
    (by norm_num [qabs, c6veh, carBase, c6front])
    (by norm_num [c6veh, carBase, c6front])
  rw [h]
  norm_num [c6veh, carBase, c6front]

/-- C3 counterexample: an AutomaticCar at velocity 30 whose recomputed
safe distance is 27, with the front vehicle at gap 40 (inside the
lock-in window) at the same speed, satisfies every hypothesis of the
claim (`|velocity - vf| = 0 < 1`, `extremely_safe_distance = 4 > 2`);
the update snaps the velocity and zeroes the acceleration as claimed,
but decrements `safe_distance` (27 leaves as 26) while
`extremely_safe_distance` stays 4 instead of dropping to 3. -/
theorem c3_lockin_counterexample :
    (HumanVehicle.update confBase c3nb 0 (1/2) 0 c3veh).velocity = 30 ∧
    (HumanVehicle.update confBase c3nb 0 (1/2) 0 c3veh).acceleration = 0 ∧
    (HumanVehicle.update confBase c3nb 0 (1/2) 0 c3veh).safe_distance = 26 ∧
    (HumanVehicle.update confBase c3nb 0 (1/2) 0 c3veh).extremely_safe_distance ≠
      c3veh.extremely_safe_distance - 1 := by
  refine ⟨?_, ?_, ?_, ?_⟩ <;>
    norm_num [HumanVehicle.update, accelStep, laneChangeStep, safeDistanceStep, capVelocityStep,
      Vehicle.update, AutomaticCar.calc_acceleration, HumanVehicle.accel_rule,
      HumanVehicle.adaptive_rule, HumanVehicle.braking_rule,
      HumanVehicle.prob_right, HumanVehicle.enough_room_front, HumanVehicle.enough_room_back,
      p_lt_prob_left, HumanVehicle.prob_left_gate, rpow34_lt, gap_ok_front, gap_ok_back,
      qmin, qmax, qabs, c3veh, carBase, confBase, nbEmpty, c3nb, c3front]

/-- C5 (corrected): a Standard-Fast vehicle with `desired_velocity = 32`,
`epsilon = 5`, `velocity = 0`, no front neighbor and `dt = 0.1` has,
after one tick, `acceleration = AMAX` (the deficit 32 is *not* below
`epsilon = 5`, so the scaled rule applies and its argument
`32 / 0.01 * L * AMAX` is far above the `AMAX` cap) and `velocity = 0`
(the kinematics step integrates the *previous* acceleration, 0). -/
theorem c5_free_flow_amended (conf : Conf) (nb : Neighbors) (p now : ℚ) (s : Vehicle)
    (hauto : s.auto = false) (hfront : nb.front = none)
    (hv : s.velocity = 0) (ha : s.acceleration = 0)
    (hdes : s.desired_velocity = 32) (heps : s.epsilon = 5)
    (hA1 : 5/2 ≤ s.HV_AMAX) (hL1 : 1 ≤ s.HV_L) :
    (HumanVehicle.update conf nb (1/10) p now s).acceleration = s.HV_AMAX ∧
    (HumanVehicle.update conf nb (1/10) p now s).velocity = 0 := by
  unfold HumanVehicle.update
  set s1 := Vehicle.update conf nb (1/10) s with hs1
  have hv1 : s1.velocity = 0 := by
    rw [hs1]
    unfold Vehicle.update
    rw [hfront]
    dsimp only
    show qmax 0 (s.velocity + s.acceleration * (1/10)) = 0
    rw [hv, ha]
    norm_num [qmax]
  have hd1 : s1.desired_velocity = 32 := by
    rw [hs1, Vehicle.update_desired conf nb (1/10) s, hdes]
  set s2 := capVelocityStep s1 with hs2
  have hv2 : s2.velocity = 0 := by
    rw [hs2]
    show qmin s1.desired_velocity s1.velocity = 0
    rw [hv1, hd1]
    norm_num [qmin]
  set s3 := safeDistanceStep s2 with hs3
  have hv3 : s3.velocity = 0 := hv2
  set s4 := laneChangeStep conf nb p now s3 with hs4
  have h4 : s4 = s3 := by
    rw [hs4]
    apply laneChangeStep_guard_false
    rintro ⟨-, hgt⟩
    rw [hv3] at hgt
    norm_num at hgt
  have hauto4 : s4.auto = false := by
    rw [h4]
    show s1.auto = false
    rw [hs1, Vehicle.update_auto conf nb (1/10) s, hauto]
  rw [accelStep_of_not_auto nb s4 hauto4]
  have hv4 : s4.velocity = 0 := by rw [h4]; exact hv3
  have hd4 : s4.desired_velocity = 32 := by
    rw [h4]
    show s1.desired_velocity = 32
    exact hd1
  have heps4 : s4.epsilon = 5 := by
    rw [h4]
    show s1.epsilon = 5
    rw [hs1, Vehicle.update_epsilon conf nb (1/10) s, heps]
  have hAMAX4 : s4.HV_AMAX = s.HV_AMAX := by
    rw [h4]
    show s1.HV_AMAX = s.HV_AMAX
    rw [hs1, Vehicle.update_AMAX conf nb (1/10) s]
  have hL4 : s4.HV_L = s.HV_L := by
    rw [h4]
    show s1.HV_L = s.HV_L
    rw [hs1, Vehicle.update_HVL conf nb (1/10) s]
  have hcalc : HumanVehicle.calc_acceleration s4 nb.front = s.HV_AMAX := by
    rw [hfront]
    show HumanVehicle.accel_rule s4 = s.HV_AMAX
    unfold HumanVehicle.accel_rule
    rw [hv4, hd4, heps4, hAMAX4, hL4]
    rw [if_neg (by norm_num), if_neg (by norm_num)]
    norm_num
    rw [qmin_eq_left]
    nlinarith [mul_nonneg (by linarith : (0:ℚ) ≤ s.HV_AMAX) (by linarith : (0:ℚ) ≤ 3200 * s.HV_L - 1)]
  constructor
  · show qmin s4.HV_AMAX (HumanVehicle.calc_acceleration s4 nb.front) = s.HV_AMAX
    rw [hcalc, hAMAX4]
    unfold qmin
    rw [if_pos (le_refl _)]
  · show s4.velocity = 0
    exact hv4

/-- C5 witness: `carBase` (with `AMAX = 3`, `L = 10`) on an open road. -/
theorem c5_free_flow_amended_witness :
    (HumanVehicle.update confBase nbEmpty (1/10) (1/2) 0 carBase).acceleration =
      carBase.HV_AMAX ∧
    (HumanVehicle.update confBase nbEmpty (1/10) (1/2) 0 carBase).velocity = 0 :=
  c5_free_flow_amended confBase nbEmpty (1/2) 0 carBase rfl rfl rfl rfl rfl rfl
    (by norm_num [carBase]) (by norm_num [carBase])

/-- C5 counterexample: on the claim's own scenario (`carBase`:
`desired_velocity = 32`, `epsilon = 5`, `velocity = 0`, no front
neighbor, `dt = 0.1`, profile values `AMAX = 3`, `A0 = 1`), the
post-update acceleration is `3 = AMAX`, not `A0 = 1.0`, and the
velocity is `0`, not `≈ 0.1`. -/
theorem c5_free_flow_counterexample :
    (HumanVehicle.update confBase nbEmpty (1/10) (1/2) 0 carBase).acceleration = 3 ∧
    carBase.HV_A0 = 1 ∧ (3 : ℚ) ≠ 1 ∧
    (HumanVehicle.update confBase nbEmpty (1/10) (1/2) 0 carBase).velocity = 0 := by
  refine ⟨?_, rfl, by norm_num, ?_⟩ <;>
    norm_num [HumanVehicle.update, accelStep, laneChangeStep, safeDistanceStep, capVelocityStep,
      Vehicle.update, HumanVehicle.calc_acceleration, HumanVehicle.accel_rule,
      qmin, qmax, qabs, carBase, confBase, nbEmpty]

/-- C10 (confirmed): at a reachable state whose front gap `df = 2` lies
strictly below `safe_distance = 4` with every gating condition of
`prob_left` satisfied, the returned probability is
`(safe_distance / df) ** (3/4) = 2 ** (3/4) > 1`; hence every uniform
draw `p` in `[0, 1)` satisfies `p < p_left`, in real arithmetic and in
the decidable comparison the lane-change step uses, so the left change
is taken whenever the positional guards pass. -/
theorem c10_prob_left_exceeds_one :
    HumanVehicle.prob_left c10veh c10nb = (2 : ℝ) ^ ((3 : ℝ)/4) ∧
    1 < HumanVehicle.prob_left c10veh c10nb ∧
    (∀ x : ℝ, 0 ≤ x → x < 1 → x < HumanVehicle.prob_left c10veh c10nb) ∧
    (∀ q : ℚ, 0 ≤ q → q < 1 → p_lt_prob_left q c10veh c10nb = true) := by
  have hgate : HumanVehicle.prob_left_gate c10veh c10nb = true := by
    norm_num [HumanVehicle.prob_left_gate, HumanVehicle.enough_room_front,
      HumanVehicle.enough_room_back, qmax, c10veh, carBase, c10nb, c10front, nbEmpty]
  have hval : HumanVehicle.prob_left c10veh c10nb = (2 : ℝ) ^ ((3 : ℝ)/4) := by
    unfold HumanVehicle.prob_left
    rw [show c10nb.front = some c10front from rfl]
    dsimp only
    rw [if_pos hgate]
    norm_num [c10veh, carBase, c10front]
  have hone : 1 < HumanVehicle.prob_left c10veh c10nb := by
    rw [hval, Real.one_lt_rpow_iff_of_pos (by norm_num : (0:ℝ) < 2)]
    left
    constructor <;> norm_num
  refine ⟨hval, hone, fun x hx0 hx1 => lt_trans hx1 hone, ?_⟩
  intro q hq0 hq1
  unfold p_lt_prob_left
  rw [show c10nb.front = some c10front from rfl]
  dsimp only
  rw [if_pos hgate]
  have hbase : c10veh.safe_distance / (c10front.position - c10veh.position) = 2 := by
    norm_num [c10veh, carBase, c10front]
  rw [hbase]
  unfold rpow34_lt
  rw [Bool.or_eq_true, decide_eq_true_eq, decide_eq_true_eq]
  right
  nlinarith [mul_nonneg hq0 hq0, mul_nonneg (mul_nonneg hq0 hq0) hq0]

/-- C10 witness: the draw `p = 1/2` is below the returned probability,
both as reals and through the decidable comparison of the update. -/
theorem c10_prob_left_exceeds_one_witness :
    ((1/2 : ℝ) < HumanVehicle.prob_left c10veh c10nb) ∧
    p_lt_prob_left (1/2) c10veh c10nb = true :=
  ⟨c10_prob_left_exceeds_one.2.2.1 (1/2) (by norm_num) (by norm_num),
   c10_prob_left_exceeds_one.2.2.2 (1/2) (by norm_num) (by norm_num)⟩
